import Mathlib

/-!
Verification of `scripts/ovpn_monitor.py`, a single-run VPN host-metrics
collector.  The script resolves its public IP, gathers five metrics
(OpenVPN user count, 15-minute CPU load, service status, vnstat usage
history, instantaneous download speed) and POSTs each one to a fixed URL
template.

The embedding is a shallow one: every interaction with the outside world
(shell commands, file reads, HTTP POSTs) is an entry of an `Env` record
holding that interaction's outcome, either a value or a Python exception.
Each Python function becomes a Lean function of the environment returning
`Except PyExn _`; functions with observable effects additionally return a
trace of `Event`s (counter reads, the sleep, the POST attempts) so that
claims about the number, order and shape of requests can be stated.
Python floats are modelled as exact rationals, `round(x, 2)` as
round-half-to-even on hundredths, and `str.strip` on the ASCII whitespace
characters Python strips.
-/

/-- Kinds of Python exceptions the script can see.  `get_rx_bytes`
catches exactly `FileNotFoundError`, so the kind must be distinguishable;
all other handlers are bare `except`. -/
inductive PyExn where
  | fileNotFound
  | valueError
  | osError
  | requestException
  | genericError
deriving DecidableEq

/-- Characters removed by Python's `str.strip()` (ASCII subset). -/
def isPySpace (c : Char) : Bool :=
  c == ' ' || c == '\t' || c == '\n' || c == '\r' || c == '\x0b' || c == '\x0c'

/-- Python `s.strip()`. -/
def pyStrip (s : String) : String :=
  String.mk (((s.data.dropWhile isPySpace).reverse.dropWhile isPySpace).reverse)

/-- Round-half-to-even to the nearest integer, the rounding mode of
Python's builtin `round`. -/
def rhe (q : ℚ) : ℤ :=
  if q - ⌊q⌋ < 1/2 then ⌊q⌋
  else if 1/2 < q - ⌊q⌋ then ⌊q⌋ + 1
  else if ⌊q⌋ % 2 = 0 then ⌊q⌋ else ⌊q⌋ + 1

/-- Python `round(q, 2)` over exact rationals. -/
def pyRound2 (q : ℚ) : ℚ :=
  (rhe (q * 100) : ℚ) / 100

/-- Decimal rendering of `n` hundredths with trailing zero dropped:
`800 ↦ "8.0"`, `120 ↦ "1.2"`, `125 ↦ "1.25"`, `105 ↦ "1.05"`. -/
def fmtCore (n : ℕ) : String :=
  toString (n / 100) ++ "." ++
    (if n % 100 % 10 = 0 then toString (n % 100 / 10)
     else (if n % 100 < 10 then "0" else "") ++ toString (n % 100))

/-- Python `str` of a float that is an exact multiple of 1/100 (every
value the script interpolates into a URL is the result of `round(_, 2)`):
"8.0", "1.2", "1.25", "-8.0", "1.05". -/
def fmtFloat2 (q : ℚ) : String :=
  (if q < 0 then "-" else "") ++ fmtCore (|q| * 100).floor.toNat

-- ----------------------------
-- CONFIGURATION (verbatim from the script header)
-- ----------------------------

def API_BASE_URL : String := "https://papi.fusionsai.net/api"
def OVPN_INTERFACE : String := "tun0"
def STATUS_FILE : String := "/var/log/openvpn/openvpn-status.log"
def NETWORK_INTERFACE : String := "<interface>"
def SERVICE_NAME : String := "openvpn-server@server.service"
def PLATFORM : String := "android"

-- ----------------------------
-- vnstat JSON data model
-- ----------------------------

/-- One entry of vnstat's `traffic.day` / `traffic.month` arrays. -/
structure DayEntry where
  rx : ℤ
  tx : ℤ
deriving DecidableEq

/-- The `traffic` object of one interface.  A missing `day`/`month` key
behaves exactly like an empty array under `dict.get(_, [])`, so both are
modelled as `[]`. -/
structure Traffic where
  day : List DayEntry
  month : List DayEntry
deriving DecidableEq

/-- One element of the `interfaces` array.  A missing `traffic` key
behaves like an empty object under `dict.get("traffic", {})`, which in
turn yields empty `day`/`month` arrays, so it is modelled as the empty
`Traffic`. -/
structure IfaceData where
  traffic : Traffic
deriving DecidableEq

/-- A parsed vnstat JSON document.  `"interfaces" not in data` and
`data["interfaces"] == []` take the same branch in the script, so both
are modelled as `interfaces = []`. -/
structure VnstatData where
  interfaces : List IfaceData
deriving DecidableEq

/-- The `stats` dictionary built by `get_vnstat_usage`. -/
structure VnstatStats where
  daily : ℚ
  weekly : ℚ
  monthly : ℚ
deriving DecidableEq

def zeroStats : VnstatStats := ⟨0, 0, 0⟩

-- ----------------------------
-- Environment: outcomes of all external interactions of one run
-- ----------------------------

/-- Outcomes of every external interaction of one run of the script.
`Except.error e` means the corresponding Python call raised `e`. -/
structure Env where
  /-- stdout of `curl -s -4 icanhazip.com` (or the exception raised). -/
  curl : Except PyExn String
  /-- stdout of the grep/awk/wc pipeline of `get_ovpn_users`. -/
  usersOut : Except PyExn String
  /-- result of `os.getloadavg()`: the 1/5/15-minute load averages. -/
  loadavg : Except PyExn (ℚ × ℚ × ℚ)
  /-- result of `os.cpu_count()`; `none` models Python's `None`. -/
  cpuCount : Option ℕ
  /-- stdout of `systemctl is-active <service>`. -/
  svcOut : Except PyExn String
  /-- exit code of `subprocess.call(["which", "vnstat"])`. -/
  whichExit : Except PyExn ℤ
  /-- returncode and stdout of `vnstat -i <iface> --json`. -/
  vnstatRun : Except PyExn (ℤ × String)
  /-- result of `json.loads` on that stdout; `none` means the parse
  raised (non-JSON output). -/
  vnstatJson : Option VnstatData
  /-- first read of `/sys/class/net/<iface>/statistics/rx_bytes`. -/
  rx1 : Except PyExn ℤ
  /-- second read of the same counter, after the sleep. -/
  rx2 : Except PyExn ℤ
  /-- outcome of the i-th HTTP POST (status code, or the exception). -/
  postResults : Fin 5 → Except PyExn ℕ

-- ----------------------------
-- Observable events of a run
-- ----------------------------

/-- Observable effects of a run, in order: counter-file reads, the
sampling sleep, and HTTP POST attempts with their timeout and body. -/
inductive Event where
  | readRx (iface : String)
  | sleep (secs : ℚ)
  | post (url : String) (timeout : ℚ) (body : Option String)
  | logInfo (msg : String)
  | logError (msg : String)
deriving DecidableEq

def Event.isPost : Event → Bool
  | .post _ _ _ => true
  | _ => false

/-- The HTTP POST attempts of a trace, in order. -/
def postEvents (tr : List Event) : List Event :=
  tr.filter Event.isPost

-- ----------------------------
-- HELPER FUNCTIONS (one Lean def per Python def)
-- ----------------------------

/-- Module-level IP fetch: `curl`'s stripped stdout, with `"0.0.0.0"`
when the command raised or printed only whitespace. -/
def ipAddress (env : Env) : String :=
  match env.curl with
  | .error _ => "0.0.0.0"
  | .ok out =>
    let s := pyStrip out
    if s = "" then "0.0.0.0" else s

/-- The inner `get_rx_bytes` of `get_download_speed`: its
`try/except FileNotFoundError` turns exactly that exception into 0 and
lets every other exception propagate. -/
def get_rx_bytes (r : Except PyExn ℤ) : Except PyExn ℤ :=
  match r with
  | .ok n => .ok n
  | .error .fileNotFound => .ok 0
  | .error e => .error e

/-- `get_download_speed(interface, interval=1)`: two counter reads
separated by one sleep, then `round(((rx2-rx1)*8)/1_000_000/interval, 2)`.
Returns the trace of effects up to the point an exception propagates. -/
def get_download_speed (env : Env) (interface : String) (interval : ℚ) :
    List Event × Except PyExn ℚ :=
  match get_rx_bytes env.rx1 with
  | .error e => ([Event.readRx interface], .error e)
  | .ok rx1 =>
    match get_rx_bytes env.rx2 with
    | .error e =>
      ([Event.readRx interface, Event.sleep interval, Event.readRx interface], .error e)
    | .ok rx2 =>
      ([Event.readRx interface, Event.sleep interval, Event.readRx interface],
       .ok (pyRound2 ((((rx2 : ℚ) - (rx1 : ℚ)) * 8) / 1000000 / interval)))

/-- `get_vnstat_usage(interface)`.  The `which vnstat` probe sits outside
the `try`, so an exception from it propagates; everything after it is
inside `try/except: return stats`. -/
def get_vnstat_usage (env : Env) : Except PyExn VnstatStats :=
  match env.whichExit with
  | .error e => .error e
  | .ok code =>
    if code ≠ 0 then .ok zeroStats
    else
      match env.vnstatRun with
      | .error _ => .ok zeroStats
      | .ok (rc, out) =>
        if rc ≠ 0 ∨ pyStrip out = "" then .ok zeroStats
        else
          match env.vnstatJson with
          | none => .ok zeroStats
          | some data =>
            match data.interfaces with
            | [] => .ok zeroStats
            | iface0 :: _ =>
              let days := iface0.traffic.day
              let daily :=
                match days.getLast? with
                | none => (0 : ℚ)
                | some today => pyRound2 (((today.rx : ℚ) + (today.tx : ℚ)) / 1073741824)
              let weekly :=
                match days.getLast? with
                | none => (0 : ℚ)
                | some _ =>
                  let last7 := days.drop (days.length - 7)
                  pyRound2 (((last7.map (fun d => (d.rx : ℚ) + (d.tx : ℚ))).sum) / 1073741824)
              let monthly :=
                match iface0.traffic.month.getLast? with
                | none => (0 : ℚ)
                | some m => pyRound2 (((m.rx : ℚ) + (m.tx : ℚ)) / 1073741824)
              .ok ⟨daily, weekly, monthly⟩

/-- `get_ovpn_users()`: stripped pipeline stdout, `"0"` when that is
empty or anything raised. -/
def get_ovpn_users (env : Env) : String :=
  match env.usersOut with
  | .error _ => "0"
  | .ok out =>
    let active_clients := pyStrip out
    if active_clients = "" then "0" else active_clients

/-- `get_cpu_usage_15min()`: `round((load15 / total_cores) * 100, 2)`,
with `os.cpu_count() or 1` for the core count and 0.0 on any exception. -/
def get_cpu_usage_15min (env : Env) : ℚ :=
  match env.loadavg with
  | .error _ => 0
  | .ok (_load1, _load5, load15) =>
    let n := env.cpuCount.getD 0
    let total_cores : ℕ := if n = 0 then 1 else n
    pyRound2 (load15 / (total_cores : ℚ) * 100)

/-- `check_service_status(service_name)`: `"1"` iff the stripped
`systemctl is-active` output equals `"active"`, `"0"` otherwise
(including any exception). -/
def check_service_status (env : Env) (_service_name : String) : String :=
  match env.svcOut with
  | .error _ => "0"
  | .ok out => if pyStrip out = "active" then "1" else "0"

-- ----------------------------
-- MAIN LOGIC
-- ----------------------------

/-- One POST attempt of phase 2: the request (fixed 10-second timeout, no
body) followed by the success or error log line; its `try/except` never
lets the outcome escape. -/
def attemptPost (url : String) (label : String) (res : Except PyExn ℕ) :
    List Event :=
  match res with
  | .ok _status => [Event.post url 10 none, Event.logInfo label]
  | .error _ => [Event.post url 10 none, Event.logError label]

/-- `send_data()`: phase 1 gathers the five metrics (users, CPU, service
status, vnstat history, download speed — in that order, with no
surrounding `try`), phase 2 POSTs them in the order users, CPU, status,
speed, history, each in its own `try/except`.  The result is the trace
of events up to normal return or up to the exception that escaped. -/
def send_data (env : Env) : List Event × Except PyExn Unit :=
  let ip := ipAddress env
  let user_count := get_ovpn_users env
  let cpu_val := get_cpu_usage_15min env
  let svc_status := check_service_status env SERVICE_NAME
  match get_vnstat_usage env with
  | .error e => ([], .error e)
  | .ok vn_stats =>
    match get_download_speed env NETWORK_INTERFACE 1 with
    | (tr, .error e) => (tr, .error e)
    | (tr, .ok dl_mbps) =>
      let posts :=
        attemptPost (API_BASE_URL ++ "/total-users/" ++ ip ++ "/" ++ user_count)
          "Users API" (env.postResults 0) ++
        attemptPost (API_BASE_URL ++ "/cpu-usage/" ++ ip ++ "/" ++ fmtFloat2 cpu_val)
          "CPU API" (env.postResults 1) ++
        attemptPost (API_BASE_URL ++ "/update-instance-status/" ++ ip ++ "/openvpn/" ++
            PLATFORM ++ "/" ++ svc_status)
          "Status API" (env.postResults 2) ++
        attemptPost (API_BASE_URL ++ "/server-speed/" ++ ip ++ "/" ++ fmtFloat2 dl_mbps)
          "Bandwidth API" (env.postResults 3) ++
        attemptPost (API_BASE_URL ++ "/historical-bandwidth/openvpn/" ++ ip ++ "/" ++
            fmtFloat2 vn_stats.daily ++ "/" ++ fmtFloat2 vn_stats.weekly ++ "/" ++
            fmtFloat2 vn_stats.monthly)
          "History API" (env.postResults 4)
      (tr ++ posts, .ok ())

/-- Phase 1 of `send_data` reaches phase 2 exactly when the `which`
probe returns and neither counter read raises anything but
`FileNotFoundError`. -/
def phase1Completes (env : Env) : Prop :=
  (∃ c, env.whichExit = Except.ok c) ∧
  (∃ n, get_rx_bytes env.rx1 = Except.ok n) ∧
  (∃ m, get_rx_bytes env.rx2 = Except.ok m)

-- ----------------------------
-- Concrete environments used by witnesses and counterexamples
-- ----------------------------

/-- A fully healthy run: every external call succeeds. -/
def okEnv : Env where
  curl := .ok "203.0.113.7\n"
  usersOut := .ok "3\n"
  loadavg := .ok (1/2, 1/2, 1/2)
  cpuCount := some 2
  svcOut := .ok "active\n"
  whichExit := .ok 0
  vnstatRun := .ok (0, "json")
  vnstatJson := some ⟨[⟨⟨[⟨536870912, 536870912⟩, ⟨1073741824, 1073741824⟩], [⟨2147483648, 0⟩]⟩⟩]⟩
  rx1 := .ok 0
  rx2 := .ok 1000000
  postResults := fun _ => .ok 200

/-- A run whose second counter read raises `ValueError` (counter file
present but its contents not parseable as an int): the inner handler
catches only `FileNotFoundError`, so the exception escapes. -/
def badRxEnv : Env :=
  { okEnv with rx2 := .error .valueError }

/-- A run where the counter got reset: the first read returns 1000000
and the second read hits a missing file and falls back to 0. -/
def negSpeedEnv : Env :=
  { okEnv with rx1 := .ok 1000000, rx2 := .error .fileNotFound }

/-- A run where `curl` prints only whitespace. -/
def emptyCurlEnv : Env :=
  { okEnv with curl := .ok " \n " }

/-- A run where `which vnstat` exits nonzero (no vnstat binary). -/
def noVnstatEnv : Env :=
  { okEnv with whichExit := .ok 1 }

/-- A run where the fourth POST (server speed) raises. -/
def failPostEnv : Env :=
  { okEnv with postResults := fun i => if i = 3 then .error .requestException else .ok 200 }

/-- A run whose user-counting pipeline emits non-numeric text. -/
def usersEnv : Env :=
  { okEnv with usersOut := .ok " abc " }

/-- The error-log label of the i-th POST attempt. -/
def postLabel : Fin 5 → String
  | ⟨0, _⟩ => "Users API"
  | ⟨1, _⟩ => "CPU API"
  | ⟨2, _⟩ => "Status API"
  | ⟨3, _⟩ => "Bandwidth API"
  | ⟨4, _⟩ => "History API"

/-- The vnstat statistics gathered in `okEnv`. -/
def okVnStats : VnstatStats :=
  ((get_vnstat_usage okEnv).toOption).getD zeroStats

-- ----------------------------
-- Helper lemmas: rounding
-- ----------------------------

theorem rhe_floor_le (q : ℚ) : ⌊q⌋ ≤ rhe q := by
  unfold rhe; split_ifs <;> omega

theorem rhe_le_floor_add_one (q : ℚ) : rhe q ≤ ⌊q⌋ + 1 := by
  unfold rhe; split_ifs <;> omega

theorem rhe_nonneg {q : ℚ} (h : 0 ≤ q) : 0 ≤ rhe q := by
  have hf : (0 : ℤ) ≤ ⌊q⌋ := Int.floor_nonneg.mpr h
  have := rhe_floor_le q
  omega

theorem rhe_mono {x y : ℚ} (h : x ≤ y) : rhe x ≤ rhe y := by
  have hf : ⌊x⌋ ≤ ⌊y⌋ := Int.floor_le_floor h
  rcases eq_or_lt_of_le hf with heq | hlt
  · have hq : ((⌊x⌋ : ℚ)) = (⌊y⌋ : ℚ) := by rw [heq]
    have hfr : x - (⌊x⌋ : ℚ) ≤ y - (⌊y⌋ : ℚ) := by rw [← hq]; linarith
    unfold rhe
    split_ifs <;> first | omega | linarith
  · have h1 := rhe_le_floor_add_one x
    have h2 := rhe_floor_le y
    omega

theorem rhe_intCast (z : ℤ) : rhe (z : ℚ) = z := by
  unfold rhe
  rw [Int.floor_intCast]
  norm_num

theorem pyRound2_eq_of_mul_eq (q : ℚ) (z : ℤ) (h : q * 100 = (z : ℚ)) :
    pyRound2 q = (z : ℚ) / 100 := by
  unfold pyRound2
  rw [h, rhe_intCast]

theorem pyRound2_nonneg {q : ℚ} (h : 0 ≤ q) : 0 ≤ pyRound2 q := by
  unfold pyRound2
  have : (0 : ℤ) ≤ rhe (q * 100) := rhe_nonneg (by positivity)
  positivity

theorem pyRound2_mono {x y : ℚ} (h : x ≤ y) : pyRound2 x ≤ pyRound2 y := by
  unfold pyRound2
  have h1 : rhe (x * 100) ≤ rhe (y * 100) := rhe_mono (by linarith)
  have hc : ((rhe (x * 100) : ℚ)) ≤ (rhe (y * 100) : ℚ) := by exact_mod_cast h1
  linarith

-- ----------------------------
-- Helper lemmas: lists
-- ----------------------------

theorem getLast?_drop_of_lt {α : Type} :
    ∀ (l : List α) (n : ℕ), n < l.length → (l.drop n).getLast? = l.getLast?
  | [], n, h => by simp at h
  | _ :: l, 0, _ => rfl
  | a :: l, n+1, h => by
    simp only [List.drop_succ_cons]
    rw [getLast?_drop_of_lt l n (by simpa using h)]
    cases l with
    | nil => simp at h
    | cons b t => rw [List.getLast?_cons_cons]

theorem mem_of_getLast?_eq {α : Type} :
    ∀ {l : List α} {a : α}, l.getLast? = some a → a ∈ l
  | [], a, h => by simp at h
  | [x], a, h => by
    simp [List.getLast?] at h
    simp [h]
  | x :: y :: t, a, h => by
    rw [List.getLast?_cons_cons] at h
    exact List.mem_cons_of_mem _ (mem_of_getLast?_eq h)

theorem getLast?_map_eq {α β : Type} (f : α → β) :
    ∀ (l : List α), (l.map f).getLast? = Option.map f l.getLast?
  | [] => rfl
  | [_] => rfl
  | x :: y :: t => by
    rw [List.map_cons, List.getLast?_cons_cons, List.map_cons,
      List.getLast?_cons_cons, ← List.map_cons]
    exact getLast?_map_eq f (y :: t)

theorem last_le_sum_of_nonneg {l : List ℚ} {a : ℚ}
    (hl : ∀ x ∈ l, 0 ≤ x) (h : l.getLast? = some a) : a ≤ l.sum :=
  List.single_le_sum hl a (mem_of_getLast?_eq h)

-- ----------------------------
-- Helper lemmas: structure of one run
-- ----------------------------

theorem attemptPost_filter (u l : String) (r : Except PyExn ℕ) :
    List.filter Event.isPost (attemptPost u l r) = [Event.post u 10 none] := by
  cases r <;> rfl

theorem get_vnstat_usage_isOk (env : Env) (c : ℤ) (h : env.whichExit = Except.ok c) :
    ∃ s, get_vnstat_usage env = Except.ok s := by
  unfold get_vnstat_usage
  rw [h]
  by_cases hc : c ≠ 0
  · simp [hc]
  · simp only [hc, if_false]
    cases hr : env.vnstatRun with
    | error e => exact ⟨zeroStats, rfl⟩
    | ok p =>
      obtain ⟨rc, out⟩ := p
      by_cases hco : rc ≠ 0 ∨ pyStrip out = ""
      · simp [hco]
      · simp only [hco, if_false]
        cases hj : env.vnstatJson with
        | none => exact ⟨zeroStats, rfl⟩
        | some data =>
          obtain ⟨ifs⟩ := data
          cases ifs with
          | nil => exact ⟨zeroStats, rfl⟩
          | cons i0 rest => exact ⟨_, rfl⟩

/-- When phase 1 completes, the whole run of `send_data` is the speed
trace followed by the five POST attempts, and it returns normally. -/
theorem send_data_eq (env : Env) (vn : VnstatStats) (r1 r2 : ℤ)
    (hv : get_vnstat_usage env = Except.ok vn)
    (h1 : get_rx_bytes env.rx1 = Except.ok r1)
    (h2 : get_rx_bytes env.rx2 = Except.ok r2) :
    send_data env =
      ([Event.readRx NETWORK_INTERFACE, Event.sleep 1, Event.readRx NETWORK_INTERFACE] ++
        (attemptPost (API_BASE_URL ++ "/total-users/" ++ ipAddress env ++ "/" ++ get_ovpn_users env)
          "Users API" (env.postResults 0) ++
         attemptPost (API_BASE_URL ++ "/cpu-usage/" ++ ipAddress env ++ "/" ++
            fmtFloat2 (get_cpu_usage_15min env)) "CPU API" (env.postResults 1) ++
         attemptPost (API_BASE_URL ++ "/update-instance-status/" ++ ipAddress env ++ "/openvpn/" ++
            PLATFORM ++ "/" ++ check_service_status env SERVICE_NAME) "Status API" (env.postResults 2) ++
         attemptPost (API_BASE_URL ++ "/server-speed/" ++ ipAddress env ++ "/" ++
            fmtFloat2 (pyRound2 (((r2 : ℚ) - (r1 : ℚ)) * 8 / 1000000 / 1)))
          "Bandwidth API" (env.postResults 3) ++
         attemptPost (API_BASE_URL ++ "/historical-bandwidth/openvpn/" ++ ipAddress env ++ "/" ++
            fmtFloat2 vn.daily ++ "/" ++ fmtFloat2 vn.weekly ++ "/" ++ fmtFloat2 vn.monthly)
          "History API" (env.postResults 4)),
       Except.ok ()) := by
  simp only [send_data, get_download_speed, hv, h1, h2]

-- ----------------------------
-- C1
-- ----------------------------

/-- C1, counterexample: the claim that no exception ever escapes
`send_data` is false.  In `badRxEnv` the second rx-counter read raises
`ValueError` (counter file present but unparseable); `get_rx_bytes`
catches only `FileNotFoundError`, so `send_data` does not return
normally. -/
theorem send_data_escape_counterexample :
    (send_data badRxEnv).2 ≠ Except.ok () := by
  intro h
  rw [show (send_data badRxEnv).2 = Except.error PyExn.valueError from rfl] at h
  exact Except.noConfusion h

/-- C1, amended: whenever the `which vnstat` probe returns and neither
counter read raises anything other than `FileNotFoundError`, `send_data`
returns normally (the process exits 0) no matter how every other
external call — including every HTTP POST — fails. -/
theorem send_data_returns_normally (env : Env) (h : phase1Completes env) :
    (send_data env).2 = Except.ok () := by
  obtain ⟨⟨c, hc⟩, ⟨n, h1⟩, ⟨m, h2⟩⟩ := h
  obtain ⟨vn, hv⟩ := get_vnstat_usage_isOk env c hc
  rw [send_data_eq env vn n m hv h1 h2]

/-- C1, witness: a fully healthy run returns normally. -/
theorem send_data_returns_normally_witness : (send_data okEnv).2 = Except.ok () :=
  send_data_returns_normally okEnv ⟨⟨0, rfl⟩, ⟨0, rfl⟩, ⟨1000000, rfl⟩⟩

-- ----------------------------
-- C2
-- ----------------------------

/-- C2, counterexample: the claimed non-negativity fails exactly in the
case the claim includes — a successful first read (1000000 bytes)
followed by a failed second read replaced by the fallback 0 yields
`round((0 - 1000000) * 8 / 1_000_000 / 1, 2) = -8.0 < 0`. -/
theorem download_speed_negative_counterexample :
    (get_download_speed negSpeedEnv NETWORK_INTERFACE 1).2 = Except.ok (-8 : ℚ) ∧
    ¬ (0 : ℚ) ≤ (-8 : ℚ) := by
  constructor
  · show Except.ok (pyRound2 ((((0 : ℤ) : ℚ) - ((1000000 : ℤ) : ℚ)) * 8 / 1000000 / 1)) = _
    rw [pyRound2_eq_of_mul_eq ((((0 : ℤ) : ℚ) - ((1000000 : ℤ) : ℚ)) * 8 / 1000000 / 1)
      (-800) (by norm_num)]
    norm_num
  · norm_num

/-- C2, amended: the computed download throughput is non-negative
whenever the second sampled counter value (after the missing-file
fallback) is at least the first, i.e. whenever the cumulative counter
did not fall between the two reads. -/
theorem download_speed_nonneg (env : Env) (iface : String) (interval : ℚ) (r1 r2 : ℤ)
    (h1 : get_rx_bytes env.rx1 = Except.ok r1) (h2 : get_rx_bytes env.rx2 = Except.ok r2)
    (hle : r1 ≤ r2) (hpos : 0 < interval) :
    ∃ v, (get_download_speed env iface interval).2 = Except.ok v ∧ 0 ≤ v := by
  refine ⟨pyRound2 (((r2 : ℚ) - (r1 : ℚ)) * 8 / 1000000 / interval), ?_, ?_⟩
  · simp only [get_download_speed, h1, h2]
  · apply pyRound2_nonneg
    apply div_nonneg _ hpos.le
    apply div_nonneg _ (by norm_num)
    have : (r1 : ℚ) ≤ (r2 : ℚ) := by exact_mod_cast hle
    linarith

/-- C2, witness: with reads 0 then 1000000 over a 1-second interval the
speed exists and is non-negative. -/
theorem download_speed_nonneg_witness :
    ∃ v, (get_download_speed okEnv NETWORK_INTERFACE 1).2 = Except.ok v ∧ 0 ≤ v :=
  download_speed_nonneg okEnv NETWORK_INTERFACE 1 0 1000000 rfl rfl (by decide) (by norm_num)

-- ----------------------------
-- C3
-- ----------------------------

/-- C3: if the public-IP command raises, or prints output whose strip is
empty, `ipAddress` is the fallback string `"0.0.0.0"`; being a total
function of the outcome, the script then proceeds with that value. -/
theorem ipAddress_fallback (env : Env) :
    (env.curl.isOk = false → ipAddress env = "0.0.0.0") ∧
    (∀ s, env.curl = Except.ok s → pyStrip s = "" → ipAddress env = "0.0.0.0") := by
  constructor
  · intro h
    unfold ipAddress
    cases hc : env.curl with
    | error e => rfl
    | ok s => rw [hc] at h; simp [Except.isOk, Except.toBool] at h
  · intro s hs hstrip
    unfold ipAddress
    rw [hs]
    simp [hstrip]

/-- C3, witness: `curl` printing only whitespace yields the fallback. -/
theorem ipAddress_fallback_witness :
    pyStrip " \n " = "" ∧ ipAddress emptyCurlEnv = "0.0.0.0" :=
  ⟨by decide, (ipAddress_fallback emptyCurlEnv).2 " \n " rfl (by decide)⟩

-- ----------------------------
-- C4
-- ----------------------------

/-- C4: `get_download_speed` performs exactly two counter reads
separated by a single sleep of the sampling interval (`send_data`
invokes it with the default, 1 second) and returns
`round(((rx2 - rx1) * 8) / 1_000_000 / interval, 2)`; a read hitting a
missing counter file yields 0. -/
theorem get_download_speed_two_reads (env : Env) (iface : String) (interval : ℚ) (r1 r2 : ℤ)
    (h1 : get_rx_bytes env.rx1 = Except.ok r1) (h2 : get_rx_bytes env.rx2 = Except.ok r2) :
    get_download_speed env iface interval =
      ([Event.readRx iface, Event.sleep interval, Event.readRx iface],
       Except.ok (pyRound2 (((r2 : ℚ) - (r1 : ℚ)) * 8 / 1000000 / interval))) ∧
    get_rx_bytes (Except.error PyExn.fileNotFound) = Except.ok 0 := by
  refine ⟨?_, rfl⟩
  simp only [get_download_speed, h1, h2]

/-- C4, witness: the healthy run reads 0, sleeps one second, reads
1000000 and returns the rounded Mbps value. -/
theorem get_download_speed_two_reads_witness :
    get_download_speed okEnv NETWORK_INTERFACE 1 =
      ([Event.readRx NETWORK_INTERFACE, Event.sleep 1, Event.readRx NETWORK_INTERFACE],
       Except.ok (pyRound2 ((((1000000 : ℤ) : ℚ) - ((0 : ℤ) : ℚ)) * 8 / 1000000 / 1))) ∧
    get_rx_bytes (Except.error PyExn.fileNotFound) = Except.ok 0 :=
  get_download_speed_two_reads okEnv NETWORK_INTERFACE 1 0 1000000 rfl rfl

-- ----------------------------
-- C5
-- ----------------------------

/-- C5: when the vnstat source is absent or unusable — `which vnstat`
exits nonzero, the vnstat invocation returns a nonzero exit code or
empty output (or itself raises, making the universally quantified
disjunct vacuous while the handler still returns the zeros), the output
fails to parse as JSON, or the parsed data has no interfaces —
`get_vnstat_usage` returns the zero statistics. -/
theorem get_vnstat_usage_zero_fallback (env : Env) (c : ℤ)
    (hw : env.whichExit = Except.ok c)
    (h : c ≠ 0
      ∨ (∀ rc out, env.vnstatRun = Except.ok (rc, out) → rc ≠ 0 ∨ pyStrip out = "")
      ∨ env.vnstatJson = none
      ∨ (∃ d, env.vnstatJson = some d ∧ d.interfaces = [])) :
    get_vnstat_usage env = Except.ok zeroStats := by
  unfold get_vnstat_usage
  rw [hw]
  by_cases hc : c ≠ 0
  · simp [hc]
  · simp only [hc, if_false]
    cases hr : env.vnstatRun with
    | error e => rfl
    | ok p =>
      obtain ⟨rc, out⟩ := p
      by_cases hco : rc ≠ 0 ∨ pyStrip out = ""
      · simp [hco]
      · simp only [hco, if_false]
        rcases h with h | h | h | h
        · exact absurd h hc
        · exact absurd (h rc out hr) hco
        · rw [h]
        · obtain ⟨d, hd, hi⟩ := h
          rw [hd]
          obtain ⟨ifs⟩ := d
          simp only at hi
          subst hi
          rfl

/-- C5, witness: with `which vnstat` exiting 1 the zero statistics come
back even though the rest of the environment is healthy. -/
theorem get_vnstat_usage_zero_fallback_witness :
    get_vnstat_usage noVnstatEnv = Except.ok zeroStats :=
  get_vnstat_usage_zero_fallback noVnstatEnv 1 rfl (Or.inl (by decide))

-- ----------------------------
-- C6
-- ----------------------------

/-- C6, counterexample: "in every run exactly five POSTs" is false — in
`badRxEnv` phase 1 raises `ValueError` out of the counter read and the
run issues no POST at all. -/
theorem send_data_no_posts_counterexample :
    (postEvents (send_data badRxEnv).1).length ≠ 5 := by
  decide

/-- C6, amended: in every run whose metric gathering completes (the
`which` probe returns and the counter reads raise at most
`FileNotFoundError`), `send_data` issues exactly five POSTs — users,
CPU, service status, speed, history, in that order — each to its fixed
URL template with the metric values embedded in the path, with no
request body and the same 10-second timeout. -/
theorem send_data_five_posts (env : Env) (vn : VnstatStats) (r1 r2 : ℤ)
    (hv : get_vnstat_usage env = Except.ok vn)
    (h1 : get_rx_bytes env.rx1 = Except.ok r1)
    (h2 : get_rx_bytes env.rx2 = Except.ok r2) :
    postEvents (send_data env).1 =
      [Event.post (API_BASE_URL ++ "/total-users/" ++ ipAddress env ++ "/" ++
         get_ovpn_users env) 10 none,
       Event.post (API_BASE_URL ++ "/cpu-usage/" ++ ipAddress env ++ "/" ++
         fmtFloat2 (get_cpu_usage_15min env)) 10 none,
       Event.post (API_BASE_URL ++ "/update-instance-status/" ++ ipAddress env ++ "/openvpn/" ++
         PLATFORM ++ "/" ++ check_service_status env SERVICE_NAME) 10 none,
       Event.post (API_BASE_URL ++ "/server-speed/" ++ ipAddress env ++ "/" ++
         fmtFloat2 (pyRound2 (((r2 : ℚ) - (r1 : ℚ)) * 8 / 1000000 / 1))) 10 none,
       Event.post (API_BASE_URL ++ "/historical-bandwidth/openvpn/" ++ ipAddress env ++ "/" ++
         fmtFloat2 vn.daily ++ "/" ++ fmtFloat2 vn.weekly ++ "/" ++
         fmtFloat2 vn.monthly) 10 none] := by
  rw [send_data_eq env vn r1 r2 hv h1 h2]
  simp only [postEvents, List.filter_append, attemptPost_filter]
  rfl

/-- C6, witness: the healthy run issues exactly the five POSTs. -/
theorem send_data_five_posts_witness :
    postEvents (send_data okEnv).1 =
      [Event.post (API_BASE_URL ++ "/total-users/" ++ ipAddress okEnv ++ "/" ++
         get_ovpn_users okEnv) 10 none,
       Event.post (API_BASE_URL ++ "/cpu-usage/" ++ ipAddress okEnv ++ "/" ++
         fmtFloat2 (get_cpu_usage_15min okEnv)) 10 none,
       Event.post (API_BASE_URL ++ "/update-instance-status/" ++ ipAddress okEnv ++ "/openvpn/" ++
         PLATFORM ++ "/" ++ check_service_status okEnv SERVICE_NAME) 10 none,
       Event.post (API_BASE_URL ++ "/server-speed/" ++ ipAddress okEnv ++ "/" ++
         fmtFloat2 (pyRound2 ((((1000000 : ℤ) : ℚ) - ((0 : ℤ) : ℚ)) * 8 / 1000000 / 1))) 10 none,
       Event.post (API_BASE_URL ++ "/historical-bandwidth/openvpn/" ++ ipAddress okEnv ++ "/" ++
         fmtFloat2 okVnStats.daily ++ "/" ++ fmtFloat2 okVnStats.weekly ++ "/" ++
         fmtFloat2 okVnStats.monthly) 10 none] :=
  send_data_five_posts okEnv okVnStats 0 1000000 rfl rfl rfl

-- ----------------------------
-- C7
-- ----------------------------

/-- C7: if the i-th POST raises, the run still returns normally, the
error is logged under that POST's label, and all five POSTs are still
attempted in order with the already-gathered metric values — the POST
trace does not depend on any POST's outcome. -/
theorem send_data_post_failure_isolated (env : Env) (vn : VnstatStats) (r1 r2 : ℤ)
    (i : Fin 5) (e : PyExn)
    (hv : get_vnstat_usage env = Except.ok vn)
    (h1 : get_rx_bytes env.rx1 = Except.ok r1)
    (h2 : get_rx_bytes env.rx2 = Except.ok r2)
    (hfail : env.postResults i = Except.error e) :
    (send_data env).2 = Except.ok () ∧
    postEvents (send_data env).1 =
      [Event.post (API_BASE_URL ++ "/total-users/" ++ ipAddress env ++ "/" ++
         get_ovpn_users env) 10 none,
       Event.post (API_BASE_URL ++ "/cpu-usage/" ++ ipAddress env ++ "/" ++
         fmtFloat2 (get_cpu_usage_15min env)) 10 none,
       Event.post (API_BASE_URL ++ "/update-instance-status/" ++ ipAddress env ++ "/openvpn/" ++
         PLATFORM ++ "/" ++ check_service_status env SERVICE_NAME) 10 none,
       Event.post (API_BASE_URL ++ "/server-speed/" ++ ipAddress env ++ "/" ++
         fmtFloat2 (pyRound2 (((r2 : ℚ) - (r1 : ℚ)) * 8 / 1000000 / 1))) 10 none,
       Event.post (API_BASE_URL ++ "/historical-bandwidth/openvpn/" ++ ipAddress env ++ "/" ++
         fmtFloat2 vn.daily ++ "/" ++ fmtFloat2 vn.weekly ++ "/" ++
         fmtFloat2 vn.monthly) 10 none] ∧
    Event.logError (postLabel i) ∈ (send_data env).1 := by
  refine ⟨?_, ?_, ?_⟩
  · rw [send_data_eq env vn r1 r2 hv h1 h2]
  · rw [send_data_eq env vn r1 r2 hv h1 h2]
    simp only [postEvents, List.filter_append, attemptPost_filter]
    rfl
  · rw [send_data_eq env vn r1 r2 hv h1 h2]
    fin_cases i
    · have hf : env.postResults 0 = Except.error e := hfail
      simp [attemptPost, hf, postLabel]
    · have hf : env.postResults 1 = Except.error e := hfail
      simp [attemptPost, hf, postLabel]
    · have hf : env.postResults 2 = Except.error e := hfail
      simp [attemptPost, hf, postLabel]
    · have hf : env.postResults 3 = Except.error e := hfail
      simp [attemptPost, hf, postLabel]
    · have hf : env.postResults 4 = Except.error e := hfail
      simp [attemptPost, hf, postLabel]

/-- C7, witness: with the speed POST raising, the run still returns
normally, all five POSTs are attempted and the failure is logged. -/
theorem send_data_post_failure_isolated_witness :
    (send_data failPostEnv).2 = Except.ok () ∧
    postEvents (send_data failPostEnv).1 =
      [Event.post (API_BASE_URL ++ "/total-users/" ++ ipAddress failPostEnv ++ "/" ++
         get_ovpn_users failPostEnv) 10 none,
       Event.post (API_BASE_URL ++ "/cpu-usage/" ++ ipAddress failPostEnv ++ "/" ++
         fmtFloat2 (get_cpu_usage_15min failPostEnv)) 10 none,
       Event.post (API_BASE_URL ++ "/update-instance-status/" ++ ipAddress failPostEnv ++ "/openvpn/" ++
         PLATFORM ++ "/" ++ check_service_status failPostEnv SERVICE_NAME) 10 none,
       Event.post (API_BASE_URL ++ "/server-speed/" ++ ipAddress failPostEnv ++ "/" ++
         fmtFloat2 (pyRound2 ((((1000000 : ℤ) : ℚ) - ((0 : ℤ) : ℚ)) * 8 / 1000000 / 1))) 10 none,
       Event.post (API_BASE_URL ++ "/historical-bandwidth/openvpn/" ++ ipAddress failPostEnv ++ "/" ++
         fmtFloat2 okVnStats.daily ++ "/" ++ fmtFloat2 okVnStats.weekly ++ "/" ++
         fmtFloat2 okVnStats.monthly) 10 none] ∧
    Event.logError (postLabel 3) ∈ (send_data failPostEnv).1 :=
  send_data_post_failure_isolated failPostEnv okVnStats 0 1000000 3 PyExn.requestException
    rfl rfl rfl rfl

-- ----------------------------
-- C8
-- ----------------------------

/-- C8: whenever the vnstat day entries are all non-negative, the weekly
figure returned by `get_vnstat_usage` is at least the daily figure: the
weekly sum ranges over the last seven day entries including the day used
for the daily figure, and the rounding is monotone.  (On every early
fallback branch both figures are 0.) -/
theorem vnstat_weekly_ge_daily (env : Env) (s : VnstatStats)
    (hs : get_vnstat_usage env = Except.ok s)
    (hnn : ∀ d, env.vnstatJson = some d → ∀ i ∈ d.interfaces, ∀ e ∈ i.traffic.day,
      (0 : ℤ) ≤ e.rx ∧ (0 : ℤ) ≤ e.tx) :
    s.daily ≤ s.weekly := by
  obtain ⟨curl, usersOut, loadavg, cpuCount, svcOut, whichExit, vnstatRun,
    vnstatJson, rx1, rx2, postResults⟩ := env
  unfold get_vnstat_usage at hs
  cases whichExit with
  | error e => exact absurd hs (by simp)
  | ok c =>
    dsimp only at hs
    by_cases hc : c ≠ 0
    · rw [if_pos hc] at hs
      obtain rfl : zeroStats = s := Except.ok.inj hs
      exact le_refl _
    · rw [if_neg hc] at hs
      cases vnstatRun with
      | error e =>
        obtain rfl : zeroStats = s := Except.ok.inj hs
        exact le_refl _
      | ok p =>
        obtain ⟨rc, out⟩ := p
        dsimp only at hs
        by_cases hco : rc ≠ 0 ∨ pyStrip out = ""
        · rw [if_pos hco] at hs
          obtain rfl : zeroStats = s := Except.ok.inj hs
          exact le_refl _
        · rw [if_neg hco] at hs
          cases vnstatJson with
          | none =>
            obtain rfl : zeroStats = s := Except.ok.inj hs
            exact le_refl _
          | some data =>
            obtain ⟨ifs⟩ := data
            dsimp only at hs
            cases ifs with
            | nil =>
              obtain rfl : zeroStats = s := Except.ok.inj hs
              exact le_refl _
            | cons i0 rest =>
              dsimp only at hs
              obtain rfl := (Except.ok.inj hs).symm
              dsimp only
              cases hlast : i0.traffic.day.getLast? with
              | none => simp [hlast]
              | some today =>
                dsimp only
                apply pyRound2_mono
                rw [div_le_div_iff_of_pos_right (by norm_num)]
                have hne : i0.traffic.day ≠ [] := by
                  intro h0
                  rw [h0] at hlast
                  exact Option.noConfusion hlast
                have hlen : i0.traffic.day.length - 7 < i0.traffic.day.length := by
                  have := List.length_pos.mpr hne
                  omega
                have hlast7 :
                    ((i0.traffic.day.drop (i0.traffic.day.length - 7)).map
                        (fun d => (d.rx : ℚ) + (d.tx : ℚ))).getLast? =
                      some ((today.rx : ℚ) + (today.tx : ℚ)) := by
                  rw [getLast?_map_eq, getLast?_drop_of_lt _ _ hlen, hlast]
                  rfl
                have hmem : ∀ x ∈ (i0.traffic.day.drop (i0.traffic.day.length - 7)).map
                    (fun d => (d.rx : ℚ) + (d.tx : ℚ)), 0 ≤ x := by
                  intro x hx
                  obtain ⟨d, hd, rfl⟩ := List.mem_map.mp hx
                  have hd2 : d ∈ i0.traffic.day := List.drop_subset _ _ hd
                  have hnn2 := hnn ⟨i0 :: rest⟩ rfl i0 (List.mem_cons_self i0 rest) d hd2
                  have hrx : (0 : ℚ) ≤ (d.rx : ℚ) := by exact_mod_cast hnn2.1
                  have htx : (0 : ℚ) ≤ (d.tx : ℚ) := by exact_mod_cast hnn2.2
                  linarith
                exact last_le_sum_of_nonneg hmem hlast7

/-- C8, witness: in the healthy run (two day entries of 0.5 GiB each and
yesterday plus today summing in the weekly figure) the weekly figure
dominates the daily one. -/
theorem vnstat_weekly_ge_daily_witness : okVnStats.daily ≤ okVnStats.weekly :=
  vnstat_weekly_ge_daily okEnv okVnStats rfl
    (by
      intro d hd i hi e he
      obtain rfl :
          (⟨[⟨⟨[⟨536870912, 536870912⟩, ⟨1073741824, 1073741824⟩], [⟨2147483648, 0⟩]⟩⟩]⟩ :
            VnstatData) = d := Option.some.inj hd
      simp at hi
      subst hi
      simp at he
      rcases he with rfl | rfl <;> exact ⟨by decide, by decide⟩)

-- ----------------------------
-- C9
-- ----------------------------

/-- C9: `check_service_status` returns one of exactly two strings, and
returns `"1"` precisely when the query succeeded and its stripped output
equals `"active"`; every other case, including an exception, yields
`"0"`. -/
theorem check_service_status_binary (env : Env) (name : String) :
    (check_service_status env name = "1" ∨ check_service_status env name = "0") ∧
    (check_service_status env name = "1" ↔
      ∃ out, env.svcOut = Except.ok out ∧ pyStrip out = "active") := by
  unfold check_service_status
  cases hc : env.svcOut with
  | error e =>
    dsimp only
    refine ⟨Or.inr rfl, ⟨fun h => absurd h (by decide), ?_⟩⟩
    rintro ⟨o, ho, _⟩
    exact Except.noConfusion ho
  | ok out =>
    dsimp only
    by_cases hs : pyStrip out = "active"
    · rw [if_pos hs]
      exact ⟨Or.inl rfl, ⟨fun _ => ⟨out, rfl, hs⟩, fun _ => rfl⟩⟩
    · rw [if_neg hs]
      refine ⟨Or.inr rfl, ⟨fun h => absurd h (by decide), ?_⟩⟩
      rintro ⟨o, ho, hstrip⟩
      obtain rfl : out = o := Except.ok.inj ho
      exact absurd hstrip hs

-- ----------------------------
-- C10
-- ----------------------------

/-- C10: `get_ovpn_users` always returns a non-empty string: the
stripped pipeline output verbatim — numeric or not — when that is
non-empty, and `"0"` when the output strips to empty or anything
raised. -/
theorem get_ovpn_users_nonempty (env : Env) :
    get_ovpn_users env ≠ "" ∧
    (∀ s, env.usersOut = Except.ok s → pyStrip s ≠ "" → get_ovpn_users env = pyStrip s) ∧
    (((∃ e, env.usersOut = Except.error e) ∨
      (∃ s, env.usersOut = Except.ok s ∧ pyStrip s = "")) →
      get_ovpn_users env = "0") := by
  refine ⟨?_, ?_, ?_⟩
  · unfold get_ovpn_users
    cases hc : env.usersOut with
    | error e => dsimp only; decide
    | ok out =>
      dsimp only
      by_cases hs : pyStrip out = ""
      · simp [hs]
      · simp [hs]
  · intro s hs hne
    unfold get_ovpn_users
    rw [hs]
    simp [hne]
  · intro h
    unfold get_ovpn_users
    rcases h with ⟨e, he⟩ | ⟨s, hs, hstrip⟩
    · rw [he]
    · rw [hs]
      simp [hstrip]

/-- C10, witness: a non-numeric pipeline output is returned verbatim
after stripping, with no numeric validation. -/
theorem get_ovpn_users_nonempty_witness :
    get_ovpn_users usersEnv = pyStrip " abc " :=
  (get_ovpn_users_nonempty usersEnv).2.1 " abc " rfl (by decide)
